import Mathlib

/-!
Shallow embedding of the MCMC sampler core of MCMC_BHPIRE, src/chain.c:
the target-distribution evaluator (model, prior, like, post), the
Box-Muller Gaussian draw (gauss), and the Metropolis walker loop
(walkers).  C doubles are modelled as real numbers; the Mersenne-Twister
draws are modelled as explicit inputs: raw 32-bit draws for uniform01
and gauss, and per-iteration step/uniform values for the walker loop.
-/

namespace Chain

noncomputable section

open Real

/-- Conversion factor from microarcseconds to radians, chain.c line 26. -/
def muarcsecToRad : ℝ := 4.8481368110954e-12

/-- Largest value of a raw 32-bit Mersenne-Twister draw, 0xFFFFFFFF, chain.c line 22. -/
def MTMAX : ℕ := 4294967295

/-- The six model parameters: entries 0..5 of the array Aparam in chain.c,
named after the driver comments in mcmc.c lines 98-103 (flux and width of
Gaussian component 1; x and y displacement, flux and width of component 2). -/
structure Params where
  flux1 : ℝ
  width1 : ℝ
  dx2 : ℝ
  dy2 : ℝ
  flux2 : ℝ
  width2 : ℝ

/-- One data point: matching entries of the four parallel arrays
uCo, vCo, Vis, Sigma that chain.c passes to like and walkers. -/
structure DataPoint where
  uCo : ℝ
  vCo : ℝ
  Vis : ℝ
  Sigma : ℝ

/-- Model prediction, chain.c lines 65-88: visibility amplitude of the
2-Gaussian component model at baseline coordinates (uCo, vCo). -/
def model (uCo vCo : ℝ) (A : Params) : ℝ :=
  let aux : ℝ := 2 * (π * π)
  let b02 : ℝ := (uCo * uCo + vCo * vCo) * (muarcsecToRad * muarcsecToRad)
  let Vr1 : ℝ := A.flux1 * Real.exp (-aux * (A.width1 * A.width1) * b02)
  let V2 : ℝ := A.flux2 * Real.exp (-aux * (A.width2 * A.width2) * b02)
  let phase2 : ℝ := -2 * π * (uCo * A.dx2 + vCo * A.dy2) * muarcsecToRad
  let Vr2 : ℝ := V2 * Real.cos phase2
  let Vi2 : ℝ := V2 * Real.sin phase2
  Real.sqrt ((Vr1 + Vr2) * (Vr1 + Vr2) + Vi2 * Vi2)

/-- Log prior, chain.c lines 114-125: minus the log of the product of the
two flux and two width parameters. -/
def prior (A : Params) : ℝ :=
  -Real.log (A.flux1 * A.width1 * A.flux2 * A.width2)

/-- Chi-square sum accumulated by the loop of like, chain.c lines 176-182. -/
def chi2 (A : Params) (data : List DataPoint) : ℝ :=
  (data.map (fun p =>
    (p.Vis - model p.uCo p.vCo A) * (p.Vis - model p.uCo p.vCo A) / (p.Sigma * p.Sigma))).sum

/-- Log likelihood, chain.c lines 165-192: the guard at line 171 returns
the sentinel -1e34 when any of the flux or width parameters (array
entries 0, 1, 4, 5) is strictly negative; otherwise minus the chi-square
sum over the data points. -/
def like (A : Params) (data : List DataPoint) : ℝ :=
  if A.flux1 < 0 ∨ A.width1 < 0 ∨ A.flux2 < 0 ∨ A.width2 < 0 then -1e34
  else -chi2 A data

/-- Log posterior, chain.c lines 233-240: sum of log prior and log likelihood. -/
def post (A : Params) (data : List DataPoint) : ℝ :=
  prior A + like A data

/-- Map from a raw 32-bit draw to a nominal uniform value, the expression
randomMT()/(MTMAX*1.0)+0.5 at chain.c lines 272-273 and 373. -/
def uniform01 (draw : ℕ) : ℝ := (draw : ℝ) / (MTMAX : ℝ) + 0.5

/-- Argument of the square root in gauss, chain.c line 278: -2.0*log(y1). -/
def gaussArg (y1 : ℝ) : ℝ := -2 * Real.log y1

/-- Box-Muller Gaussian draw, chain.c lines 267-280, as a function of the
two raw Mersenne-Twister draws it consumes. -/
def gauss (sigma : ℝ) (d1 d2 : ℕ) : ℝ :=
  sigma * Real.sqrt (gaussArg (uniform01 d1)) * Real.cos (2 * π * uniform01 d2)

/-- State of the walkers sampler loop, chain.c lines 324-404.  The fields
mirror the locals Aparam, probpre, accept, postMax, AparamMax and the
heap buffer chains of walkers. -/
structure WalkerState where
  Aparam : Params
  probpre : ℝ
  accept : ℕ
  postMax : ℝ
  AparamMax : Params
  chains : List Params

/-- Componentwise proposal, chain.c lines 364-367:
AparamPlusOne[i] = Aparam[i] + gauss(dev[i]); the six Gaussian step
values are collected in g. -/
def propose (A g : Params) : Params :=
  ⟨A.flux1 + g.flux1, A.width1 + g.width1, A.dx2 + g.dx2,
   A.dy2 + g.dy2, A.flux2 + g.flux2, A.width2 + g.width2⟩

/-- One iteration of the sampler loop, chain.c lines 361-404, with the
iteration's randomness supplied as inputs: g holds the six Gaussian step
values and r the uniform draw probRandom of line 373.  The accept test is
probpost >= probpre + log(probRandom) (line 377); the accept branch
(lines 377-395) updates Aparam, accept, and on probpost > postMax also
postMax and AparamMax — exactly as in the source, it does not update
probpre.  Both branches then record the current Aparam (lines 402-403). -/
def walkerStep (data : List DataPoint) (s : WalkerState) (g : Params) (r : ℝ) :
    WalkerState :=
  let AparamPlusOne := propose s.Aparam g
  let probpost := post AparamPlusOne data
  if s.probpre + Real.log r ≤ probpost then
    ⟨AparamPlusOne, s.probpre, s.accept + 1,
     if s.postMax < probpost then probpost else s.postMax,
     if s.postMax < probpost then AparamPlusOne else s.AparamMax,
     s.chains ++ [AparamPlusOne]⟩
  else
    ⟨s.Aparam, s.probpre, s.accept, s.postMax, s.AparamMax,
     s.chains ++ [s.Aparam]⟩

/-- Initial walker state, chain.c lines 336-360: probpre is the posterior
of the initial parameters (line 354), accept starts at 0 (line 336),
postMax at -1e34 (line 360); junk stands for the indeterminate contents
of the uninitialized stack array AparamMax (line 334); the chain record
starts empty. -/
def walkerInit (A0 junk : Params) (data : List DataPoint) : WalkerState :=
  ⟨A0, post A0 data, 0, -1e34, junk, []⟩

/-- The sampler loop of walkers, chain.c lines 361-404, folded over the
list of per-iteration random inputs; the list length is the chain length
Nchain. -/
def walkerLoop (data : List DataPoint) : WalkerState → List (Params × ℝ) → WalkerState
  | s, [] => s
  | s, (g, r) :: rest => walkerLoop data (walkerStep data s g r) rest

end

/-- Helper: the likelihood guard condition is false when all four guarded
components are non-negative. -/
theorem like_guard_not_of_nonneg (A : Params) (h0 : 0 ≤ A.flux1) (h1 : 0 ≤ A.width1)
    (h4 : 0 ≤ A.flux2) (h5 : 0 ≤ A.width2) :
    ¬(A.flux1 < 0 ∨ A.width1 < 0 ∨ A.flux2 < 0 ∨ A.width2 < 0) := by
  push_neg
  exact ⟨h0, h1, h4, h5⟩

/-- Helper: the guard branch of like returns the sentinel. -/
theorem like_guard_sentinel (A : Params) (data : List DataPoint)
    (h : A.flux1 < 0 ∨ A.width1 < 0 ∨ A.flux2 < 0 ∨ A.width2 < 0) :
    like A data = -1e34 := by
  simp only [like, if_pos h]

/-- C5: for every parameter vector with a strictly negative flux or width
component (array entries 0, 1, 4, 5) and every dataset, like returns the
sentinel -1e34; the value does not depend on the dataset contents. -/
theorem like_sentinel_on_negative (A : Params) (data : List DataPoint)
    (h : A.flux1 < 0 ∨ A.width1 < 0 ∨ A.flux2 < 0 ∨ A.width2 < 0) :
    like A data = -1e34 :=
  like_guard_sentinel A data h

/-- Witness for C5 at a concrete negative-flux vector and a nonempty dataset. -/
theorem like_sentinel_on_negative_witness :
    like ⟨-1, 1, 0, 0, 1, 1⟩ [⟨0, 0, 1, 1⟩] = -1e34 :=
  like_sentinel_on_negative ⟨-1, 1, 0, 0, 1, 1⟩ [⟨0, 0, 1, 1⟩] (Or.inl (by norm_num))

/-- C4 counterexample: a parameter vector with flux1 equal to zero (a
non-positive component) does not take the sentinel-rejection path; on the
empty dataset like returns 0, not the sentinel -1e34. -/
theorem like_zero_flux_not_sentinel :
    like ⟨0, 1, 0, 0, 1, 1⟩ [] ≠ -1e34 := by
  rw [like, if_neg (by push_neg; norm_num)]
  simp [chi2]
  norm_num

/-- C4 amended: only strictly negative flux or width components trigger the
sentinel guard; for every parameter vector whose guarded components are all
non-negative (zero allowed) like proceeds to the chi-square computation and
returns the negated chi-square sum. -/
theorem like_no_guard_on_nonneg (A : Params) (data : List DataPoint)
    (h0 : 0 ≤ A.flux1) (h1 : 0 ≤ A.width1) (h4 : 0 ≤ A.flux2) (h5 : 0 ≤ A.width2) :
    like A data = -chi2 A data := by
  rw [like, if_neg (like_guard_not_of_nonneg A h0 h1 h4 h5)]

/-- Witness for C4 amended at a vector with a component exactly zero. -/
theorem like_no_guard_witness :
    like ⟨0, 1, 0, 0, 1, 1⟩ [] = -chi2 ⟨0, 1, 0, 0, 1, 1⟩ [] :=
  like_no_guard_on_nonneg ⟨0, 1, 0, 0, 1, 1⟩ [] (by norm_num) (by norm_num)
    (by norm_num) (by norm_num)

/-- C3 counterexample: at the vector with flux1 = -2 and the other guarded
components 1, the likelihood returns the sentinel -1e34, but post also adds
the prior term -log 2, so post differs from the likelihood's sentinel. -/
theorem post_ne_sentinel_on_negative_flux :
    post ⟨-2, 1, 0, 0, 1, 1⟩ [] ≠ -1e34 := by
  rw [post, prior, like, if_pos (Or.inl (by norm_num))]
  intro h
  have h2 : Real.log ((-2 : ℝ) * 1 * 1 * 1) = Real.log 2 := by
    rw [show ((-2 : ℝ) * 1 * 1 * 1) = -2 by ring, Real.log_neg_eq_log]
  rw [h2] at h
  have : Real.log 2 = 0 := by linarith
  have : (0 : ℝ) < Real.log 2 := Real.log_pos (by norm_num)
  linarith

/-- C3 amended: post always equals prior plus like (no short-circuiting);
when a guarded component is negative the likelihood contributes the
sentinel -1e34, but the prior is still evaluated and added, so post equals
prior(A) - 1e34 rather than the sentinel itself. -/
theorem post_eq_prior_add_like_and_guard (A : Params) (data : List DataPoint) :
    post A data = prior A + like A data ∧
    ((A.flux1 < 0 ∨ A.width1 < 0 ∨ A.flux2 < 0 ∨ A.width2 < 0) →
      post A data = prior A + -1e34) := by
  refine ⟨rfl, fun h => ?_⟩
  rw [post, like_guard_sentinel A data h]

/-- Witness for C3 amended at the concrete negative-flux vector. -/
theorem post_guard_witness :
    post ⟨-2, 1, 0, 0, 1, 1⟩ [] = prior ⟨-2, 1, 0, 0, 1, 1⟩ + -1e34 :=
  (post_eq_prior_add_like_and_guard ⟨-2, 1, 0, 0, 1, 1⟩ []).2 (Or.inl (by norm_num))

/-- C10: the model prediction is a square root, hence non-negative for all
baseline coordinates and parameter vectors. -/
theorem model_nonneg (uCo vCo : ℝ) (A : Params) : 0 ≤ model uCo vCo A :=
  Real.sqrt_nonneg _

/-- C2 counterexample: the largest raw draw maps under the
draw/MTMAX + 0.5 convention to y1 = 1.5, where the argument of the square
root in gauss is strictly negative, so the NaN branch of gauss is
reachable under the stated RNG convention. -/
theorem gauss_sqrt_arg_neg_at_max_draw :
    gaussArg (uniform01 MTMAX) < 0 := by
  have h1 : uniform01 MTMAX = 1.5 := by
    rw [uniform01, div_self (by norm_num [MTMAX])]
    norm_num
  rw [h1, gaussArg]
  have : (0 : ℝ) < Real.log 1.5 := Real.log_pos (by norm_num)
  linarith

/-- C2 amended: under the draw/MTMAX + 0.5 convention, the argument
-2 log(y1) of the square root in gauss is non-negative exactly when the
mapped draw is at most 1, i.e. for draws in the lower half of the 32-bit
range; for draws mapping above 1 the argument is negative and the NaN
branch of gauss is reachable. -/
theorem gauss_sqrt_arg_nonneg_iff (draw : ℕ) :
    0 ≤ gaussArg (uniform01 draw) ↔ uniform01 draw ≤ 1 := by
  have hpos : 0 < uniform01 draw := by
    have : (0 : ℝ) ≤ (draw : ℝ) / (MTMAX : ℝ) :=
      div_nonneg (Nat.cast_nonneg draw) (Nat.cast_nonneg MTMAX)
    rw [uniform01]
    linarith
  rw [gaussArg]
  constructor
  · intro h
    exact (Real.log_nonpos_iff hpos).1 (by linarith)
  · intro h
    have := (Real.log_nonpos_iff hpos).2 h
    linarith

theorem model_spot_check :
    model 0 0 ⟨4.5, 4.8, -11.5, 13.6, 1.4, 3.1⟩ = 5.9 := by
  simp only [model]
  norm_num
  rw [show (3481 : ℝ) = 59 ^ 2 by norm_num, Real.sqrt_sq (by norm_num),
    show (100 : ℝ) = 10 ^ 2 by norm_num, Real.sqrt_sq (by norm_num)]

/-- Helper: one walker iteration when the accept test of chain.c line 377
succeeds. -/
theorem walkerStep_of_accept (data : List DataPoint) (s : WalkerState) (g : Params) (r : ℝ)
    (h : s.probpre + Real.log r ≤ post (propose s.Aparam g) data) :
    walkerStep data s g r =
      ⟨propose s.Aparam g, s.probpre, s.accept + 1,
       if s.postMax < post (propose s.Aparam g) data then post (propose s.Aparam g) data
         else s.postMax,
       if s.postMax < post (propose s.Aparam g) data then propose s.Aparam g
         else s.AparamMax,
       s.chains ++ [propose s.Aparam g]⟩ := by
  simp only [walkerStep, if_pos h]

/-- Helper: one walker iteration when the accept test fails. -/
theorem walkerStep_of_reject (data : List DataPoint) (s : WalkerState) (g : Params) (r : ℝ)
    (h : ¬(s.probpre + Real.log r ≤ post (propose s.Aparam g) data)) :
    walkerStep data s g r =
      ⟨s.Aparam, s.probpre, s.accept, s.postMax, s.AparamMax, s.chains ++ [s.Aparam]⟩ := by
  simp only [walkerStep, if_neg h]

/-- Helper: no branch of the walker iteration writes the probpre field. -/
theorem walkerStep_probpre (data : List DataPoint) (s : WalkerState) (g : Params) (r : ℝ) :
    (walkerStep data s g r).probpre = s.probpre := by
  by_cases h : s.probpre + Real.log r ≤ post (propose s.Aparam g) data
  · rw [walkerStep_of_accept data s g r h]
  · rw [walkerStep_of_reject data s g r h]

/-- Helper: the walker loop never changes the probpre field either. -/
theorem walkerLoop_probpre (data : List DataPoint) (rnd : List (Params × ℝ))
    (s : WalkerState) : (walkerLoop data s rnd).probpre = s.probpre := by
  induction rnd generalizing s with
  | nil => rfl
  | cons x rest ih =>
    obtain ⟨g, r⟩ := x
    simp only [walkerLoop]
    rw [ih, walkerStep_probpre]

/-- Helper: the postMax field never decreases across one walker iteration. -/
theorem walkerStep_postMax_le (data : List DataPoint) (s : WalkerState) (g : Params)
    (r : ℝ) : s.postMax ≤ (walkerStep data s g r).postMax := by
  by_cases h : s.probpre + Real.log r ≤ post (propose s.Aparam g) data
  · rw [walkerStep_of_accept data s g r h]
    dsimp only
    split_ifs with hm
    · exact hm.le
    · exact le_refl _
  · rw [walkerStep_of_reject data s g r h]

/-- Helper: the postMax field never decreases across the walker loop. -/
theorem walkerLoop_postMax_le (data : List DataPoint) (rnd : List (Params × ℝ))
    (s : WalkerState) : s.postMax ≤ (walkerLoop data s rnd).postMax := by
  induction rnd generalizing s with
  | nil => exact le_refl _
  | cons x rest ih =>
    obtain ⟨g, r⟩ := x
    simp only [walkerLoop]
    exact le_trans (walkerStep_postMax_le data s g r) (ih (walkerStep data s g r))

/-- Helper: one walker iteration preserves the MAP invariant: whenever
postMax differs from the sentinel, it is the posterior of AparamMax. -/
theorem walkerStep_map_inv (data : List DataPoint) (s : WalkerState) (g : Params) (r : ℝ)
    (h : s.postMax ≠ -1e34 → post s.AparamMax data = s.postMax) :
    (walkerStep data s g r).postMax ≠ -1e34 →
      post (walkerStep data s g r).AparamMax data = (walkerStep data s g r).postMax := by
  by_cases hc : s.probpre + Real.log r ≤ post (propose s.Aparam g) data
  · rw [walkerStep_of_accept data s g r hc]
    dsimp only
    split_ifs with hm
    · intro _
      rfl
    · exact h
  · rw [walkerStep_of_reject data s g r hc]
    exact h

/-- Helper: the walker loop preserves the MAP invariant. -/
theorem walkerLoop_map_inv (data : List DataPoint) (rnd : List (Params × ℝ))
    (s : WalkerState) (h : s.postMax ≠ -1e34 → post s.AparamMax data = s.postMax) :
    (walkerLoop data s rnd).postMax ≠ -1e34 →
      post (walkerLoop data s rnd).AparamMax data = (walkerLoop data s rnd).postMax := by
  induction rnd generalizing s with
  | nil => exact h
  | cons x rest ih =>
    obtain ⟨g, r⟩ := x
    simp only [walkerLoop]
    exact ih (walkerStep data s g r) (walkerStep_map_inv data s g r h)

/-- Helper: one walker iteration increments the acceptance counter by at
most one. -/
theorem walkerStep_accept_le (data : List DataPoint) (s : WalkerState) (g : Params)
    (r : ℝ) : (walkerStep data s g r).accept ≤ s.accept + 1 := by
  by_cases h : s.probpre + Real.log r ≤ post (propose s.Aparam g) data
  · rw [walkerStep_of_accept data s g r h]
  · rw [walkerStep_of_reject data s g r h]
    exact Nat.le_succ _

/-- Helper: across the walker loop the acceptance counter grows by at most
the number of iterations. -/
theorem walkerLoop_accept_le (data : List DataPoint) (rnd : List (Params × ℝ))
    (s : WalkerState) : (walkerLoop data s rnd).accept ≤ s.accept + rnd.length := by
  induction rnd generalizing s with
  | nil => simp [walkerLoop]
  | cons x rest ih =>
    obtain ⟨g, r⟩ := x
    simp only [walkerLoop, List.length_cons]
    calc (walkerLoop data (walkerStep data s g r) rest).accept
        ≤ (walkerStep data s g r).accept + rest.length := ih _
      _ ≤ (s.accept + 1) + rest.length :=
          Nat.add_le_add_right (walkerStep_accept_le data s g r) _
      _ = s.accept + (rest.length + 1) := by omega

/-- Helper: each walker iteration appends exactly the post-transition
parameter vector to the chain record. -/
theorem walkerStep_chains (data : List DataPoint) (s : WalkerState) (g : Params)
    (r : ℝ) :
    (walkerStep data s g r).chains = s.chains ++ [(walkerStep data s g r).Aparam] := by
  by_cases h : s.probpre + Real.log r ≤ post (propose s.Aparam g) data
  · rw [walkerStep_of_accept data s g r h]
  · rw [walkerStep_of_reject data s g r h]

/-- Helper: the walker loop appends one chain row per iteration. -/
theorem walkerLoop_chains_length (data : List DataPoint) (rnd : List (Params × ℝ))
    (s : WalkerState) :
    (walkerLoop data s rnd).chains.length = s.chains.length + rnd.length := by
  induction rnd generalizing s with
  | nil => simp [walkerLoop]
  | cons x rest ih =>
    obtain ⟨g, r⟩ := x
    simp only [walkerLoop, List.length_cons]
    rw [ih, walkerStep_chains, List.length_append]
    simp
    omega

/-- Helper: the walker loop only extends the chain record. -/
theorem walkerLoop_chains_extends (data : List DataPoint) (rnd : List (Params × ℝ))
    (s : WalkerState) : ∃ t, (walkerLoop data s rnd).chains = s.chains ++ t := by
  induction rnd generalizing s with
  | nil => exact ⟨[], by simp [walkerLoop]⟩
  | cons x rest ih =>
    obtain ⟨g, r⟩ := x
    simp only [walkerLoop]
    obtain ⟨t, ht⟩ := ih (walkerStep data s g r)
    refine ⟨(walkerStep data s g r).Aparam :: t, ?_⟩
    rw [ht, walkerStep_chains]
    simp

/-- Helper: chain row at offset i holds the current parameter vector right
after iteration i+1 of the loop. -/
theorem walkerLoop_chains_get (data : List DataPoint) (rnd : List (Params × ℝ))
    (s : WalkerState) (i : ℕ) (hi : i < rnd.length) :
    (walkerLoop data s rnd).chains[s.chains.length + i]? =
      some ((walkerLoop data s (rnd.take (i + 1))).Aparam) := by
  induction rnd generalizing s i with
  | nil => simp at hi
  | cons x rest ih =>
    obtain ⟨g, r⟩ := x
    simp only [walkerLoop, List.take_succ_cons]
    cases i with
    | zero =>
      obtain ⟨t, ht⟩ := walkerLoop_chains_extends data rest (walkerStep data s g r)
      rw [ht, walkerStep_chains]
      rw [List.append_assoc, List.getElem?_append_right (by omega)]
      simp only [walkerLoop]
      simp
    | succ j =>
      have hlen : (walkerStep data s g r).chains.length = s.chains.length + 1 := by
        rw [walkerStep_chains, List.length_append]
        simp
      have hidx : s.chains.length + (j + 1) = (walkerStep data s g r).chains.length + j := by
        omega
      rw [hidx]
      exact ih (walkerStep data s g r) j (by simpa using hi)

/-- Helper: the posterior of the all-ones flux/width vector on the empty
dataset is zero. -/
theorem post_ones : post ⟨1, 1, 0, 0, 1, 1⟩ [] = 0 := by
  rw [post, prior, like, if_neg (by push_neg; norm_num)]
  simp [chi2, Real.log_one]

/-- Helper: a zero proposal step leaves the parameter vector unchanged. -/
theorem propose_zero (A : Params) : propose A ⟨0, 0, 0, 0, 0, 0⟩ = A := by
  cases A
  simp [propose]

/-- Helper: the posterior of the candidate reached from the all-ones vector
by the step with first component e - 1 on the empty dataset is -1. -/
theorem post_exp_cand :
    post (propose ⟨1, 1, 0, 0, 1, 1⟩ ⟨Real.exp 1 - 1, 0, 0, 0, 0, 0⟩) [] = -1 := by
  rw [propose]
  rw [show (1 : ℝ) + (Real.exp 1 - 1) = Real.exp 1 by ring]
  rw [post, prior, like,
    if_neg (by push_neg; exact ⟨(Real.exp_pos 1).le, by norm_num, by norm_num, by norm_num⟩)]
  simp [chi2, Real.log_exp]

/-- C1 (code bug): the accept branch of the sampler loop in walkers never
writes probpre, so the acceptance test of every iteration compares against
the posterior of the initial parameter vector, not of the most recently
accepted one.  The first conjunct states this for every iteration input;
the remaining conjuncts run one concrete iteration (initial vector all-ones
fluxes and widths, empty dataset, step e - 1 on flux1, uniform draw
exp(-2)) in which the candidate is accepted, yet afterwards probpre still
holds the initial posterior 0 and differs from the posterior -1 of the
current parameter vector. -/
theorem walkers_probpre_never_updated :
    (∀ (data : List DataPoint) (s : WalkerState) (g : Params) (r : ℝ),
      (walkerStep data s g r).probpre = s.probpre) ∧
    (walkerStep [] (walkerInit ⟨1, 1, 0, 0, 1, 1⟩ ⟨1, 1, 0, 0, 1, 1⟩ [])
        ⟨Real.exp 1 - 1, 0, 0, 0, 0, 0⟩ (Real.exp (-2))).accept = 1 ∧
    (walkerStep [] (walkerInit ⟨1, 1, 0, 0, 1, 1⟩ ⟨1, 1, 0, 0, 1, 1⟩ [])
        ⟨Real.exp 1 - 1, 0, 0, 0, 0, 0⟩ (Real.exp (-2))).probpre ≠
      post (walkerStep [] (walkerInit ⟨1, 1, 0, 0, 1, 1⟩ ⟨1, 1, 0, 0, 1, 1⟩ [])
        ⟨Real.exp 1 - 1, 0, 0, 0, 0, 0⟩ (Real.exp (-2))).Aparam [] := by
  have hacc : (walkerInit ⟨1, 1, 0, 0, 1, 1⟩ ⟨1, 1, 0, 0, 1, 1⟩ []).probpre +
      Real.log (Real.exp (-2)) ≤
      post (propose (walkerInit ⟨1, 1, 0, 0, 1, 1⟩ ⟨1, 1, 0, 0, 1, 1⟩ []).Aparam
        ⟨Real.exp 1 - 1, 0, 0, 0, 0, 0⟩) [] := by
    simp only [walkerInit]
    rw [post_ones, post_exp_cand, Real.log_exp]
    norm_num
  refine ⟨fun data s g r => walkerStep_probpre data s g r, ?_, ?_⟩
  · rw [walkerStep_of_accept _ _ _ _ hacc]
    simp [walkerInit]
  · rw [walkerStep_of_accept _ _ _ _ hacc]
    simp only [walkerInit]
    rw [post_ones, post_exp_cand]
    norm_num

/-- C6 counterexample: a one-iteration chain from the all-ones flux/width
vector (posterior 0) on the empty dataset, whose single proposal (step -2
on flux1, uniform draw 1) is rejected: the final MAP posterior stays at
the sentinel -1e34, strictly below the posterior of the initial parameter
vector. -/
theorem walkers_final_postMax_lt_initial_post :
    (walkerLoop [] (walkerInit ⟨1, 1, 0, 0, 1, 1⟩ ⟨1, 1, 0, 0, 1, 1⟩ [])
      [(⟨-2, 0, 0, 0, 0, 0⟩, 1)]).postMax < post ⟨1, 1, 0, 0, 1, 1⟩ [] := by
  have hcand : post (propose ⟨1, 1, 0, 0, 1, 1⟩ ⟨-2, 0, 0, 0, 0, 0⟩) [] = -1e34 := by
    rw [propose]
    norm_num
    rw [post, prior, like, if_pos (Or.inl (by norm_num))]
    rw [show ((-1 : ℝ) * 1 * 1 * 1) = -1 by ring, Real.log_neg_eq_log, Real.log_one]
    norm_num
  have hrej : ¬((walkerInit ⟨1, 1, 0, 0, 1, 1⟩ ⟨1, 1, 0, 0, 1, 1⟩ []).probpre +
      Real.log 1 ≤
      post (propose (walkerInit ⟨1, 1, 0, 0, 1, 1⟩ ⟨1, 1, 0, 0, 1, 1⟩ []).Aparam
        ⟨-2, 0, 0, 0, 0, 0⟩) []) := by
    simp only [walkerInit]
    rw [post_ones, hcand, Real.log_one]
    norm_num
  simp only [walkerLoop]
  rw [walkerStep_of_reject _ _ _ _ hrej]
  simp only [walkerInit]
  rw [post_ones]
  norm_num

/-- C6 amended: across one run of walkers the MAP posterior postMax starts
at the sentinel -1e34 and is non-decreasing from any earlier point of the
run to any later one; whenever the final postMax differs from the sentinel
(at least one accepted proposal raised it), the recorded MAP vector
AparamMax has posterior equal to the final postMax.  Without an accepted
improvement the final postMax stays at the sentinel, which may lie below
the initial vector's posterior, and AparamMax keeps its indeterminate
initial contents. -/
theorem walkers_postMax_monotone_and_map (A0 junk : Params) (data : List DataPoint)
    (pre rest : List (Params × ℝ)) :
    (walkerInit A0 junk data).postMax = -1e34 ∧
    (walkerLoop data (walkerInit A0 junk data) pre).postMax ≤
      (walkerLoop data (walkerLoop data (walkerInit A0 junk data) pre) rest).postMax ∧
    ((walkerLoop data (walkerLoop data (walkerInit A0 junk data) pre) rest).postMax ≠
        -1e34 →
      post (walkerLoop data (walkerLoop data (walkerInit A0 junk data) pre)
          rest).AparamMax data =
        (walkerLoop data (walkerLoop data (walkerInit A0 junk data) pre) rest).postMax) := by
  refine ⟨rfl, walkerLoop_postMax_le data rest _, ?_⟩
  refine walkerLoop_map_inv data rest _ (walkerLoop_map_inv data pre _ ?_)
  intro h
  exact absurd rfl h

/-- Witness for C6 amended: a one-iteration run from the all-ones
flux/width vector on the empty dataset whose zero-step proposal is
accepted and raises postMax to 0; the recorded MAP vector then has
posterior equal to the final postMax. -/
theorem walkers_postMax_map_witness :
    post (walkerLoop [] (walkerLoop [] (walkerInit ⟨1, 1, 0, 0, 1, 1⟩
        ⟨1, 1, 0, 0, 1, 1⟩ []) []) [(⟨0, 0, 0, 0, 0, 0⟩, Real.exp (-1))]).AparamMax [] =
      (walkerLoop [] (walkerLoop [] (walkerInit ⟨1, 1, 0, 0, 1, 1⟩
        ⟨1, 1, 0, 0, 1, 1⟩ []) []) [(⟨0, 0, 0, 0, 0, 0⟩, Real.exp (-1))]).postMax :=
  (walkers_postMax_monotone_and_map ⟨1, 1, 0, 0, 1, 1⟩ ⟨1, 1, 0, 0, 1, 1⟩ [] []
    [(⟨0, 0, 0, 0, 0, 0⟩, Real.exp (-1))]).2.2 (by
      have hacc : (walkerInit ⟨1, 1, 0, 0, 1, 1⟩ ⟨1, 1, 0, 0, 1, 1⟩ []).probpre +
          Real.log (Real.exp (-1)) ≤
          post (propose (walkerInit ⟨1, 1, 0, 0, 1, 1⟩ ⟨1, 1, 0, 0, 1, 1⟩ []).Aparam
            ⟨0, 0, 0, 0, 0, 0⟩) [] := by
        simp only [walkerInit]
        rw [propose_zero, post_ones, Real.log_exp]
        norm_num
      simp only [walkerLoop]
      rw [walkerStep_of_accept _ _ _ _ hacc]
      simp only [walkerInit]
      rw [propose_zero, post_ones, if_pos (by norm_num)]
      norm_num)

/-- C7: for every run of the sampler loop with chain length at least 1, the
chain record holds exactly one row per iteration, and the row at offset i
is the current parameter vector immediately after the accept-or-reject
transition of iteration i+1 (the candidate if accepted, the unchanged
previous vector if rejected). -/
theorem walkers_chain_record (A0 junk : Params) (data : List DataPoint)
    (rnd : List (Params × ℝ)) (h : 1 ≤ rnd.length) :
    (walkerLoop data (walkerInit A0 junk data) rnd).chains.length = rnd.length ∧
    ∀ i, i < rnd.length →
      (walkerLoop data (walkerInit A0 junk data) rnd).chains[i]? =
        some ((walkerLoop data (walkerInit A0 junk data) (rnd.take (i + 1))).Aparam) := by
  constructor
  · rw [walkerLoop_chains_length]
    simp [walkerInit]
  · intro i hi
    have := walkerLoop_chains_get data rnd (walkerInit A0 junk data) i hi
    simpa [walkerInit] using this

/-- Witness for C7 on a concrete one-iteration run. -/
theorem walkers_chain_record_witness :
    (walkerLoop [] (walkerInit ⟨1, 1, 0, 0, 1, 1⟩ ⟨1, 1, 0, 0, 1, 1⟩ [])
      [(⟨0, 0, 0, 0, 0, 0⟩, 1)]).chains.length = 1 ∧
    (walkerLoop [] (walkerInit ⟨1, 1, 0, 0, 1, 1⟩ ⟨1, 1, 0, 0, 1, 1⟩ [])
      [(⟨0, 0, 0, 0, 0, 0⟩, 1)]).chains[0]? =
      some ((walkerLoop [] (walkerInit ⟨1, 1, 0, 0, 1, 1⟩ ⟨1, 1, 0, 0, 1, 1⟩ [])
        ([(⟨0, 0, 0, 0, 0, 0⟩, 1)].take 1)).Aparam) :=
  ⟨(walkers_chain_record ⟨1, 1, 0, 0, 1, 1⟩ ⟨1, 1, 0, 0, 1, 1⟩ []
      [(⟨0, 0, 0, 0, 0, 0⟩, 1)] (by norm_num)).1,
   (walkers_chain_record ⟨1, 1, 0, 0, 1, 1⟩ ⟨1, 1, 0, 0, 1, 1⟩ []
      [(⟨0, 0, 0, 0, 0, 0⟩, 1)] (by norm_num)).2 0 (by norm_num)⟩

/-- C8: for every run of the sampler loop with chain length at least 1, the
acceptance counter (which starts at 0 and grows by at most one per
iteration) is at most the chain length, and the acceptance fraction
accept / Nchain computed at chain.c line 434 lies in the closed interval
from 0 to 1. -/
theorem walkers_accept_bounds (A0 junk : Params) (data : List DataPoint)
    (rnd : List (Params × ℝ)) (h : 1 ≤ rnd.length) :
    (walkerLoop data (walkerInit A0 junk data) rnd).accept ≤ rnd.length ∧
    0 ≤ ((walkerLoop data (walkerInit A0 junk data) rnd).accept : ℝ) / rnd.length ∧
    ((walkerLoop data (walkerInit A0 junk data) rnd).accept : ℝ) / rnd.length ≤ 1 := by
  have hle : (walkerLoop data (walkerInit A0 junk data) rnd).accept ≤ rnd.length := by
    have := walkerLoop_accept_le data rnd (walkerInit A0 junk data)
    simpa [walkerInit] using this
  have hpos : (0 : ℝ) < rnd.length := by
    have : (1 : ℝ) ≤ rnd.length := by exact_mod_cast h
    linarith
  refine ⟨hle, div_nonneg (Nat.cast_nonneg _) hpos.le, ?_⟩
  rw [div_le_one hpos]
  exact_mod_cast hle

/-- Witness for C8 on a concrete one-iteration run. -/
theorem walkers_accept_bounds_witness :
    (walkerLoop [] (walkerInit ⟨1, 1, 0, 0, 1, 1⟩ ⟨1, 1, 0, 0, 1, 1⟩ [])
      [(⟨0, 0, 0, 0, 0, 0⟩, 1)]).accept ≤ 1 ∧
    ((walkerLoop [] (walkerInit ⟨1, 1, 0, 0, 1, 1⟩ ⟨1, 1, 0, 0, 1, 1⟩ [])
      [(⟨0, 0, 0, 0, 0, 0⟩, 1)]).accept : ℝ) / ([(((⟨0, 0, 0, 0, 0, 0⟩ : Params), (1 : ℝ)))].length) ≤ 1 :=
  ⟨by
    have := (walkers_accept_bounds ⟨1, 1, 0, 0, 1, 1⟩ ⟨1, 1, 0, 0, 1, 1⟩ []
      [(⟨0, 0, 0, 0, 0, 0⟩, 1)] (by norm_num)).1
    simpa using this,
   (walkers_accept_bounds ⟨1, 1, 0, 0, 1, 1⟩ ⟨1, 1, 0, 0, 1, 1⟩ []
      [(⟨0, 0, 0, 0, 0, 0⟩, 1)] (by norm_num)).2.2⟩

end Chain
